import Mathlib

/- Shallow embedding of the powerbuilder-realtime-notes service (main.py).
   The SQLite tables of notes.db become lists of records, the AUTOINCREMENT
   primary keys become explicit counters carried in the state, the external
   bcrypt collaborator becomes an explicit function parameter, PyJWT becomes a
   concrete signing/validation model over a token structure, and each
   HTTPException branch becomes a constructor of a result inductive. -/

/-- Row of the `users` table created by initialize_database (main.py lines
27-33): id INTEGER PRIMARY KEY AUTOINCREMENT, username TEXT UNIQUE NOT NULL,
password_hash TEXT NOT NULL. -/
structure UserRec where
  id : Nat
  username : String
  passwordHash : String
deriving Repr, DecidableEq

/-- Row of the `notes` table created by initialize_database (main.py lines
36-44): id INTEGER PRIMARY KEY AUTOINCREMENT, title TEXT NOT NULL,
content TEXT, user_id INTEGER referencing users(id). -/
structure NoteRec where
  id : Nat
  title : String
  content : String
  userId : Nat
deriving Repr, DecidableEq

/-- The persisted state of notes.db: the two tables plus the next value each
AUTOINCREMENT primary key will take. -/
structure DBState where
  users : List UserRec
  notes : List NoteRec
  nextUserId : Nat
  nextNoteId : Nat
deriving Repr, DecidableEq

/-- SELECT * FROM users WHERE username = ? followed by fetchone (SQLite TEXT
equality under the default BINARY collation is exact string equality). -/
def selectUserByName (db : DBState) (username : String) : Option UserRec :=
  db.users.find? (fun u => u.username = username)

/-- Outcome of POST /signup: ok is the 200 message, conflict the
HTTPException(status_code=400, detail="Username already exists"). -/
inductive SignupResult
  | ok
  | conflict
deriving Repr, DecidableEq

/-- POST /signup handler (main.py lines 96-114). `hash` stands for the
external bcrypt.hash collaborator (salted, so here an arbitrary function of
the password). The duplicate check runs before any insert, and the conflict
branch closes the connection without writing. -/
def signup (hash : String → String) (db : DBState) (username password : String) :
    DBState × SignupResult :=
  match selectUserByName db username with
  | some _ => (db, SignupResult.conflict)
  | none =>
      ({ db with
          users := db.users ++ [⟨db.nextUserId, username, hash password⟩],
          nextUserId := db.nextUserId + 1 },
       SignupResult.ok)

/-- Decoded claim set of a token: payload = {"sub": username, "exp": instant},
with the expiry instant in seconds. -/
structure JwtPayload where
  sub : String
  exp : Nat
deriving Repr, DecidableEq

/-- A token as PyJWT sees it after deserialization: a payload plus the
signature bytes computed over it. -/
structure JwtToken where
  payload : JwtPayload
  sig : String
deriving Repr, DecidableEq

/-- Model of the HS256 signature over secret and payload: the only property
the service relies on is that verification recomputes the signature from the
presented payload and the configured secret and compares for equality, which
this concrete tagged concatenation supports. -/
def hs256Sign (secret : String) (p : JwtPayload) : String :=
  "HS256." ++ secret ++ "." ++ p.sub ++ "." ++ toString p.exp

/-- jwt.encode(payload, SECRET_KEY, algorithm="HS256"). -/
def jwtEncode (secret : String) (p : JwtPayload) : JwtToken :=
  ⟨p, hs256Sign secret p⟩

/-- The two PyJWT failures the handler distinguishes: ExpiredSignatureError
and its superclass InvalidTokenError. -/
inductive JwtError
  | expiredSignature
  | invalidToken
deriving Repr, DecidableEq

/-- jwt.decode(token, SECRET_KEY, algorithms=["HS256"]) at clock instant
`now`: PyJWT verifies the signature first and only afterwards validates the
exp claim, raising ExpiredSignatureError when the expiry instant has passed. -/
def jwtDecode (secret : String) (now : Nat) (t : JwtToken) :
    Except JwtError JwtPayload :=
  if t.sig ≠ hs256Sign secret t.payload then Except.error JwtError.invalidToken
  else if t.payload.exp ≤ now then Except.error JwtError.expiredSignature
  else Except.ok t.payload

/-- Outcome of POST /login: a signed token on success, otherwise the
HTTPException(status_code=401, detail="Invalid username or password"). -/
inductive LoginResult
  | token (t : JwtToken)
  | unauthorized
deriving Repr, DecidableEq

/-- POST /login handler (main.py lines 117-138). `verify` stands for the
external bcrypt.verify collaborator. The handler only reads, so every branch
returns the state unchanged; on success the payload is
{"sub": user_data["username"], "exp": utcnow + timedelta(hours=1)}. -/
def login (verify : String → String → Bool) (secret : String) (now : Nat)
    (db : DBState) (username password : String) : DBState × LoginResult :=
  match selectUserByName db username with
  | none => (db, LoginResult.unauthorized)
  | some userData =>
      if ¬ verify password userData.passwordHash then (db, LoginResult.unauthorized)
      else
        (db, LoginResult.token (jwtEncode secret ⟨userData.username, now + 3600⟩))

/-- The four 401 failures of get_current_user (main.py lines 78-93), in
source order: header absent, header malformed, token expired, token invalid. -/
inductive AuthError
  | missingHeader
  | malformedHeader
  | tokenExpired
  | invalidToken
deriving Repr, DecidableEq

/-- HTTP status attached to each authorization failure: every branch of
get_current_user raises HTTPException(status_code=401, ...). -/
def authStatus : AuthError → Nat
  | _ => 401

/-- Accumulator loop behind pySplit: walk the characters, collecting the
current word in reverse, emitting it at each whitespace run or at the end. -/
def splitWsAux : List Char → List Char → List String
  | [], acc => if acc.isEmpty then [] else [String.mk acc.reverse]
  | c :: cs, acc =>
      if c.isWhitespace then
        if acc.isEmpty then splitWsAux cs []
        else String.mk acc.reverse :: splitWsAux cs []
      else splitWsAux cs (c :: acc)

/-- Python str.split() with no argument: split on runs of whitespace and
discard empty pieces. -/
def pySplit (s : String) : List String :=
  splitWsAux s.data []

/-- Python str.lower(): lowercase character by character. -/
def pyLower (s : String) : String :=
  String.mk (s.data.map Char.toLower)

/-- Header extraction part of get_current_user (main.py lines 78-86). The
argument is none when the Authorization header is absent; the guard
`if not authorization` also fires on a present empty string, which is falsy
in Python. Otherwise parts = authorization.split() must have exactly two
pieces with parts[0].lower() == "bearer", and parts[1] is the token text. -/
def parseAuthHeader (authorization : Option String) : Except AuthError String :=
  match authorization with
  | none => Except.error AuthError.missingHeader
  | some a =>
      if a = "" then Except.error AuthError.missingHeader
      else
        let parts := pySplit a
        if parts.length ≠ 2 ∨ pyLower (parts.headD "") ≠ "bearer" then
          Except.error AuthError.malformedHeader
        else Except.ok (parts.getD 1 "")

/-- Token validation part of get_current_user (main.py lines 86-93): the
except branch for ExpiredSignatureError precedes the one for its superclass
InvalidTokenError, so each PyJWT failure maps to its own 401 detail. -/
def validateToken (secret : String) (now : Nat) (t : JwtToken) :
    Except AuthError String :=
  match jwtDecode secret now t with
  | Except.ok payload => Except.ok payload.sub
  | Except.error JwtError.expiredSignature => Except.error AuthError.tokenExpired
  | Except.error JwtError.invalidToken => Except.error AuthError.invalidToken

/-- get_current_user (main.py lines 78-93). `parse` stands for PyJWT
deserialization of the compact token string; a string that does not
deserialize raises DecodeError, a subclass of InvalidTokenError. -/
def get_current_user (parse : String → Option JwtToken) (secret : String)
    (now : Nat) (authorization : Option String) : Except AuthError String :=
  match parseAuthHeader authorization with
  | Except.error e => Except.error e
  | Except.ok tokenStr =>
      match parse tokenStr with
      | none => Except.error AuthError.invalidToken
      | some t => validateToken secret now t

/-- Outcome of GET /notes: the listed rows, or the defensive
HTTPException(status_code=401, detail="User not found"). -/
inductive ListNotesResult
  | ok (rows : List (Nat × String × String))
  | userNotFound
deriving Repr, DecidableEq

/-- GET /notes handler body after authentication (main.py lines 159-176):
resolve the caller's user id, then SELECT id, title, content FROM notes
WHERE user_id = ?. -/
def get_notes (db : DBState) (username : String) : ListNotesResult :=
  match selectUserByName db username with
  | none => ListNotesResult.userNotFound
  | some u =>
      ListNotesResult.ok
        ((db.notes.filter (fun n => n.userId = u.id)).map
          (fun n => (n.id, n.title, n.content)))

/-- Outcome of POST /notes: ok is the 200 message, userNotFound the defensive
401. -/
inductive AddNoteResult
  | ok
  | userNotFound
deriving Repr, DecidableEq

/-- POST /notes handler body after authentication (main.py lines 179-198).
The pydantic model Note (lines 70-72) declares title and content as plain str
fields with no validators, so any strings, the empty string included, reach
INSERT INTO notes (user_id, title, content) VALUES (?, ?, ?). -/
def add_note (db : DBState) (username title content : String) :
    DBState × AddNoteResult :=
  match selectUserByName db username with
  | none => (db, AddNoteResult.userNotFound)
  | some u =>
      ({ db with
          notes := db.notes ++ [⟨db.nextNoteId, title, content, u.id⟩],
          nextNoteId := db.nextNoteId + 1 },
       AddNoteResult.ok)

/-- Outcome of DELETE /notes/{note_id}: ok is the 200 message, userNotFound
the defensive 401, notFoundOrUnauthorized the single undifferentiated
HTTPException(status_code=404, detail="Note not found or unauthorized"). -/
inductive DeleteResult
  | ok
  | userNotFound
  | notFoundOrUnauthorized
deriving Repr, DecidableEq

/-- DELETE /notes/{note_id} handler body after authentication (main.py lines
201-226): the ownership check is SELECT * FROM notes WHERE id = ? AND
user_id = ?, and on success DELETE FROM notes WHERE id = ? removes every row
carrying that id. -/
def delete_note (db : DBState) (username : String) (noteId : Nat) :
    DBState × DeleteResult :=
  match selectUserByName db username with
  | none => (db, DeleteResult.userNotFound)
  | some u =>
      match db.notes.find? (fun n => n.id = noteId ∧ n.userId = u.id) with
      | none => (db, DeleteResult.notFoundOrUnauthorized)
      | some _ =>
          ({ db with notes := db.notes.filter (fun n => ¬ n.id = noteId) },
           DeleteResult.ok)

/-- A live WebSocket connection held in active_connections; sendFails records
whether send_text on this transport raises when awaited. -/
structure Conn where
  id : Nat
  sendFails : Bool
deriving Repr, DecidableEq

/-- Registration step of websocket_endpoint (main.py line 146):
active_connections.append(websocket). -/
def websocket_register (registry : List Conn) (c : Conn) : List Conn :=
  registry ++ [c]

/-- Removal step of websocket_endpoint on WebSocketDisconnect (main.py line
151): Python list.remove drops the first occurrence. -/
def websocket_unregister (registry : List Conn) (c : Conn) : List Conn :=
  registry.erase c

/-- broadcast_message (main.py lines 153-156): a bare for-loop of
`await connection.send_text(message)` with no exception handling. The first
component is the delivery log (connection id, message); the second is some c
exactly when send_text on c raised, which aborts the loop there and
propagates the exception to the caller. The registry list itself is read
only, never modified, by this function. -/
def broadcast_message : List Conn → String → List (Nat × String) × Option Conn
  | [], _ => ([], none)
  | c :: rest, message =>
      if c.sendFails then ([], some c)
      else
        let r := broadcast_message rest message
        ((c.id, message) :: r.1, r.2)

/- Helper lemmas shared by several claims. -/

/-- A user returned by the username lookup carries exactly the username that
was looked up. -/
theorem selectUserByName_username {db : DBState} {username : String}
    {u : UserRec} (h : selectUserByName db username = some u) :
    u.username = username := by
  rw [selectUserByName] at h
  have hp := List.find?_some h
  exact of_decide_eq_true hp

/-- A user returned by the username lookup is a row of the users table. -/
theorem selectUserByName_mem {db : DBState} {username : String} {u : UserRec}
    (h : selectUserByName db username = some u) : u ∈ db.users := by
  rw [selectUserByName] at h
  exact List.mem_of_find?_eq_some h

/-- With distinct primary keys in the users table, equal ids mean equal rows. -/
theorem user_id_injective {db : DBState}
    (huids : (db.users.map (fun u => u.id)).Nodup)
    {u v : UserRec} (hu : u ∈ db.users) (hv : v ∈ db.users)
    (h : u.id = v.id) : u = v :=
  List.inj_on_of_nodup_map huids hu hv h

/-- With distinct primary keys in the notes table, equal ids mean equal rows. -/
theorem note_id_injective {db : DBState}
    (hnids : (db.notes.map (fun n => n.id)).Nodup)
    {m n : NoteRec} (hm : m ∈ db.notes) (hn : n ∈ db.notes)
    (h : m.id = n.id) : m = n :=
  List.inj_on_of_nodup_map hnids hm hn h

/-- C2: for every presented token, the signature check is performed before
the expiry check: a token whose signature does not verify fails with
InvalidToken even when its expiry instant has not passed, and a correctly
signed token whose expiry instant has passed fails with ExpiredToken. -/
theorem token_validation_error_order
    (parse : String → Option JwtToken) (secret : String) (now : Nat)
    (authorization : Option String) (tokenStr : String) (t : JwtToken)
    (hhdr : parseAuthHeader authorization = Except.ok tokenStr)
    (hparse : parse tokenStr = some t) :
    (t.sig ≠ hs256Sign secret t.payload →
      get_current_user parse secret now authorization =
        Except.error AuthError.invalidToken) ∧
    (t.sig = hs256Sign secret t.payload → t.payload.exp ≤ now →
      get_current_user parse secret now authorization =
        Except.error AuthError.tokenExpired) := by
  constructor
  · intro hsig
    simp [get_current_user, hhdr, hparse, validateToken, jwtDecode, hsig]
  · intro hsig hexp
    simp [get_current_user, hhdr, hparse, validateToken, jwtDecode, hsig, hexp]

/-- Concrete instance of C2: a forged-but-unexpired token is rejected as
invalid, and a correctly signed but expired token is rejected as expired. -/
theorem token_validation_error_order_witness :
    get_current_user (fun _ => some ⟨⟨"alice", 9999⟩, "forged"⟩) "key" 0
      (some "Bearer x") = Except.error AuthError.invalidToken ∧
    get_current_user (fun _ => some (jwtEncode "key" ⟨"alice", 50⟩)) "key" 100
      (some "Bearer x") = Except.error AuthError.tokenExpired := by
  constructor
  · exact (token_validation_error_order (fun _ => some ⟨⟨"alice", 9999⟩, "forged"⟩)
      "key" 0 (some "Bearer x") "x" ⟨⟨"alice", 9999⟩, "forged"⟩ (by rfl) rfl).1
      (by decide)
  · exact (token_validation_error_order (fun _ => some (jwtEncode "key" ⟨"alice", 50⟩))
      "key" 100 (some "Bearer x") "x" (jwtEncode "key" ⟨"alice", 50⟩) (by rfl) rfl).2
      rfl (by decide)

/-- C4: signup with an already-present username fails with Conflict for every
password value and leaves the store unchanged, so no new user record is
created. -/
theorem signup_conflict
    (hash : String → String) (db : DBState) (username password : String)
    (u : UserRec) (hu : u ∈ db.users) (hname : u.username = username) :
    signup hash db username password = (db, SignupResult.conflict) := by
  cases hsel : selectUserByName db username with
  | none =>
      rw [selectUserByName, List.find?_eq_none] at hsel
      exact absurd (by simp [hname]) (hsel u hu)
  | some v => simp [signup, hsel]

/-- Concrete instance of C4: a second signup for alice with a different
password fails with Conflict and the users table is unchanged. -/
theorem signup_conflict_witness :
    signup (fun p => p) ⟨[⟨1, "alice", "h1"⟩], [], 2, 1⟩ "alice" "pw2" =
      (⟨[⟨1, "alice", "h1"⟩], [], 2, 1⟩, SignupResult.conflict) :=
  signup_conflict (fun p => p) ⟨[⟨1, "alice", "h1"⟩], [], 2, 1⟩ "alice" "pw2"
    ⟨1, "alice", "h1"⟩ (by decide) rfl

/-- C5: a successful login issues a token whose decoded subject is exactly
the username used to log in and whose expiry instant is exactly one hour
(3600 seconds) after the issuance instant. -/
theorem token_contents
    (verify : String → String → Bool) (secret : String) (now : Nat)
    (db : DBState) (username password : String) (t : JwtToken)
    (h : (login verify secret now db username password).2 = LoginResult.token t) :
    t.payload.sub = username ∧ t.payload.exp = now + 3600 := by
  cases hsel : selectUserByName db username with
  | none => rw [login, hsel] at h; simp at h
  | some u =>
      have hname := selectUserByName_username hsel
      rw [login, hsel] at h
      by_cases hv : verify password u.passwordHash
      · simp [hv] at h
        refine ⟨?_, ?_⟩ <;> rw [← h] <;> simp [jwtEncode, hname]
      · simp [hv] at h

/-- Concrete instance of C5: logging in as alice at instant 0 yields a token
whose subject is alice and whose expiry instant is 3600. -/
theorem token_contents_witness :
    (jwtEncode "key" ⟨"alice", 0 + 3600⟩).payload.sub = "alice" ∧
    (jwtEncode "key" ⟨"alice", 0 + 3600⟩).payload.exp = 0 + 3600 :=
  token_contents (fun p hpw => p == hpw) "key" 0 ⟨[⟨1, "alice", "pw1"⟩], [], 2, 1⟩
    "alice" "pw1" (jwtEncode "key" ⟨"alice", 0 + 3600⟩) (by decide)

/-- C1: ownership isolation: with primary keys unique, a note owned by user A
never appears in user B's list result, and B's delete of that note's id fails
with the single undifferentiated NotFoundOrUnauthorized 404 while the store,
the note included, is left unchanged. -/
theorem ownership_isolation
    (db : DBState) (nameA nameB : String) (uA uB : UserRec) (n : NoteRec)
    (huids : (db.users.map (fun u => u.id)).Nodup)
    (hnids : (db.notes.map (fun m => m.id)).Nodup)
    (hA : selectUserByName db nameA = some uA)
    (hB : selectUserByName db nameB = some uB)
    (hAB : nameA ≠ nameB)
    (hn : n ∈ db.notes) (hown : n.userId = uA.id) :
    (∀ rows, get_notes db nameB = ListNotesResult.ok rows →
        (n.id, n.title, n.content) ∉ rows) ∧
    delete_note db nameB n.id = (db, DeleteResult.notFoundOrUnauthorized) := by
  have hmemA := selectUserByName_mem hA
  have hmemB := selectUserByName_mem hB
  have hid : uA.id ≠ uB.id := by
    intro h
    have heq : uA = uB := user_id_injective huids hmemA hmemB h
    apply hAB
    rw [← selectUserByName_username hA, ← selectUserByName_username hB, heq]
  constructor
  · intro rows hrows hmem
    rw [get_notes, hB] at hrows
    simp only [ListNotesResult.ok.injEq] at hrows
    rw [← hrows, List.mem_map] at hmem
    obtain ⟨m, hmf, htriple⟩ := hmem
    rw [List.mem_filter] at hmf
    obtain ⟨hmmem, hmowner⟩ := hmf
    have hmid : m.id = n.id := congrArg (fun p => p.1) htriple
    have hmn : m = n := note_id_injective hnids hmmem hn hmid
    rw [hmn] at hmowner
    exact hid (hown ▸ of_decide_eq_true hmowner)
  · have hfind : db.notes.find? (fun m => m.id = n.id ∧ m.userId = uB.id) = none := by
      rw [List.find?_eq_none]
      intro m hm hpm
      have hp := of_decide_eq_true hpm
      have hmn : m = n := note_id_injective hnids hm hn hp.1
      rw [hmn] at hp
      exact hid (hown ▸ hp.2)
    simp only [delete_note, hB, hfind]

/-- Concrete instance of C1: bob's list result cannot contain alice's note,
and bob's delete of alice's note 1 fails with NotFoundOrUnauthorized leaving
the store unchanged. -/
theorem ownership_isolation_witness :
    ((1, "x", "y") ∉ ([] : List (Nat × String × String))) ∧
    delete_note ⟨[⟨1, "alice", "h"⟩, ⟨2, "bob", "h"⟩], [⟨1, "x", "y", 1⟩], 3, 2⟩
        "bob" 1 =
      (⟨[⟨1, "alice", "h"⟩, ⟨2, "bob", "h"⟩], [⟨1, "x", "y", 1⟩], 3, 2⟩,
        DeleteResult.notFoundOrUnauthorized) := by
  have h := ownership_isolation
    ⟨[⟨1, "alice", "h"⟩, ⟨2, "bob", "h"⟩], [⟨1, "x", "y", 1⟩], 3, 2⟩
    "alice" "bob" ⟨1, "alice", "h"⟩ ⟨2, "bob", "h"⟩ ⟨1, "x", "y", 1⟩
    (by decide) (by decide) (by decide) (by decide) (by decide) (by decide) rfl
  exact ⟨h.1 [] (by decide), h.2⟩

/-- C9: failing operations leave the persisted state exactly as it was:
signup failing with Conflict, login failing with Unauthorized, and delete
failing with NotFoundOrUnauthorized all return the store unchanged. -/
theorem error_atomicity
    (hash : String → String) (verify : String → String → Bool) (secret : String)
    (now : Nat) (db : DBState) (username password : String) (noteId : Nat) :
    ((signup hash db username password).2 = SignupResult.conflict →
      (signup hash db username password).1 = db) ∧
    ((login verify secret now db username password).2 = LoginResult.unauthorized →
      (login verify secret now db username password).1 = db) ∧
    ((delete_note db username noteId).2 = DeleteResult.notFoundOrUnauthorized →
      (delete_note db username noteId).1 = db) := by
  refine ⟨?_, ?_, ?_⟩
  · intro h
    cases hsel : selectUserByName db username with
    | some u => simp only [signup, hsel]
    | none =>
        simp only [signup, hsel] at h
        exact SignupResult.noConfusion h
  · intro h
    cases hsel : selectUserByName db username with
    | none => simp only [login, hsel]
    | some u =>
        simp only [login, hsel]
        split <;> rfl
  · intro h
    cases hsel : selectUserByName db username with
    | none => simp only [delete_note, hsel]
    | some u =>
        cases hfind : db.notes.find? (fun m => m.id = noteId ∧ m.userId = u.id) with
        | none => simp only [delete_note, hsel, hfind]
        | some m =>
            simp only [delete_note, hsel, hfind] at h
            exact DeleteResult.noConfusion h

/-- Concrete instance of C9: a conflicting signup, a login with a wrong
password and a delete of a nonexistent note all leave the store unchanged. -/
theorem error_atomicity_witness :
    (signup (fun p => p) ⟨[⟨1, "alice", "pw1"⟩], [], 2, 1⟩ "alice" "bad").1 =
        ⟨[⟨1, "alice", "pw1"⟩], [], 2, 1⟩ ∧
    (login (fun p hpw => p == hpw) "key" 0 ⟨[⟨1, "alice", "pw1"⟩], [], 2, 1⟩
        "alice" "bad").1 = ⟨[⟨1, "alice", "pw1"⟩], [], 2, 1⟩ ∧
    (delete_note ⟨[⟨1, "alice", "pw1"⟩], [], 2, 1⟩ "alice" 7).1 =
        ⟨[⟨1, "alice", "pw1"⟩], [], 2, 1⟩ := by
  have h := error_atomicity (fun p => p) (fun p hpw => p == hpw) "key" 0
    ⟨[⟨1, "alice", "pw1"⟩], [], 2, 1⟩ "alice" "bad" 7
  exact ⟨h.1 (by decide), h.2.1 (by decide), h.2.2 (by decide)⟩

/-- C10: a successful owner delete removes exactly the note the ownership
check verified: the result is ok, the users table is untouched, and the notes
table is the old one with that single note erased. -/
theorem delete_frame
    (db : DBState) (username : String) (u : UserRec) (noteId : Nat) (n : NoteRec)
    (hnids : (db.notes.map (fun m => m.id)).Nodup)
    (hu : selectUserByName db username = some u)
    (hfind : db.notes.find? (fun m => m.id = noteId ∧ m.userId = u.id) = some n) :
    (delete_note db username noteId).2 = DeleteResult.ok ∧
    (delete_note db username noteId).1.users = db.users ∧
    (delete_note db username noteId).1.notes = db.notes.erase n := by
  have hmemn : n ∈ db.notes := List.mem_of_find?_eq_some hfind
  have hpn := List.find?_some hfind
  have hp : n.id = noteId ∧ n.userId = u.id := of_decide_eq_true hpn
  have hnodup : db.notes.Nodup := List.Nodup.of_map _ hnids
  have herase : db.notes.filter (fun m => ¬ m.id = noteId) = db.notes.erase n := by
    rw [hnodup.erase_eq_filter]
    apply List.filter_congr
    intro m hm
    by_cases hmn : m = n
    · subst hmn
      simp [hp.1]
    · have hmid : ¬ m.id = noteId := fun hmid =>
        hmn (note_id_injective hnids hm hmemn (hmid.trans hp.1.symm))
      simp [hmid, hmn]
  refine ⟨?_, ?_, ?_⟩ <;> simp only [delete_note, hu, hfind, herase]

/-- Concrete instance of C10: alice deletes her note 1 out of two notes; the
delete succeeds, the users table is unchanged and only note 1 is removed. -/
theorem delete_frame_witness :
    (delete_note ⟨[⟨1, "alice", "h"⟩], [⟨1, "x", "y", 1⟩, ⟨2, "z", "w", 1⟩], 2, 3⟩
        "alice" 1).2 = DeleteResult.ok ∧
    (delete_note ⟨[⟨1, "alice", "h"⟩], [⟨1, "x", "y", 1⟩, ⟨2, "z", "w", 1⟩], 2, 3⟩
        "alice" 1).1.users = [⟨1, "alice", "h"⟩] ∧
    (delete_note ⟨[⟨1, "alice", "h"⟩], [⟨1, "x", "y", 1⟩, ⟨2, "z", "w", 1⟩], 2, 3⟩
        "alice" 1).1.notes =
      [⟨1, "x", "y", 1⟩, ⟨2, "z", "w", 1⟩].erase ⟨1, "x", "y", 1⟩ :=
  delete_frame ⟨[⟨1, "alice", "h"⟩], [⟨1, "x", "y", 1⟩, ⟨2, "z", "w", 1⟩], 2, 3⟩
    "alice" ⟨1, "alice", "h"⟩ 1 ⟨1, "x", "y", 1⟩ (by decide) (by decide) (by decide)

/-- When no send fails, the broadcast loop logs one delivery per registered
connection, in registration order, and surfaces no exception. -/
theorem broadcast_all_ok (registry : List Conn) (message : String)
    (hok : ∀ c ∈ registry, c.sendFails = false) :
    broadcast_message registry message =
      (registry.map (fun c => (c.id, message)), none) := by
  induction registry with
  | nil => rfl
  | cons c rest ih =>
      have hc := hok c (List.mem_cons_self c rest)
      simp only [broadcast_message, hc, Bool.false_eq_true, if_false, List.map_cons]
      rw [ih (fun d hd => hok d (List.mem_cons_of_mem c hd))]

/-- Counting a delivery pair in the log is counting the connection id among
the logged ids. -/
theorem count_broadcast (registry : List Conn) (message : String) (i : Nat) :
    ((registry.map (fun c => (c.id, message))).count (i, message)) =
      (registry.map (fun c => c.id)).count i := by
  induction registry with
  | nil => rfl
  | cons c rest ih => simp [List.count_cons, ih, Prod.ext_iff]

/-- C7: when every send succeeds, a broadcast surfaces no failure, delivers
the message exactly once to each currently-registered connection, and
delivers nothing to any connection id absent from the registry, such as one
unregistered before the broadcast began. -/
theorem broadcast_coverage
    (registry : List Conn) (message : String)
    (hok : ∀ c ∈ registry, c.sendFails = false)
    (hnd : (registry.map (fun c => c.id)).Nodup) :
    (broadcast_message registry message).2 = none ∧
    (∀ c ∈ registry,
      (broadcast_message registry message).1.count (c.id, message) = 1) ∧
    (∀ c : Conn, c.id ∉ registry.map (fun d => d.id) →
      (broadcast_message registry message).1.count (c.id, message) = 0) := by
  have hb := broadcast_all_ok registry message hok
  refine ⟨by rw [hb], ?_, ?_⟩
  · intro c hc
    rw [hb]
    show ((registry.map (fun d => (d.id, message))).count (c.id, message)) = 1
    rw [count_broadcast]
    exact List.count_eq_one_of_mem hnd (List.mem_map_of_mem (fun d => d.id) hc)
  · intro c hc
    rw [hb]
    show ((registry.map (fun d => (d.id, message))).count (c.id, message)) = 0
    rw [count_broadcast]
    exact List.count_eq_zero_of_not_mem hc

/-- Concrete instance of C7: three open channels each receive the note event
exactly once, while a channel id not in the registry receives nothing. -/
theorem broadcast_coverage_witness :
    (broadcast_message [⟨1, false⟩, ⟨2, false⟩, ⟨3, false⟩] "New note added").2 =
      none ∧
    (broadcast_message [⟨1, false⟩, ⟨2, false⟩, ⟨3, false⟩] "New note added").1.count
      (2, "New note added") = 1 ∧
    (broadcast_message [⟨1, false⟩, ⟨2, false⟩, ⟨3, false⟩] "New note added").1.count
      (4, "New note added") = 0 := by
  have h := broadcast_coverage [⟨1, false⟩, ⟨2, false⟩, ⟨3, false⟩] "New note added"
    (by decide) (by decide)
  exact ⟨h.1, h.2.1 ⟨2, false⟩ (by decide), h.2.2 ⟨4, false⟩ (by decide)⟩

/-- C3 counterexample: with a registry holding a failing connection followed
by a healthy one, the broadcast loop surfaces the send failure to its caller
and delivers nothing to the remaining connection, contrary to the claim that
the failure is contained and delivery continues. The function also leaves the
registry untouched, so the failing connection is not removed. -/
theorem broadcast_failure_not_contained :
    (broadcast_message [⟨1, true⟩, ⟨2, false⟩] "New note added").2 = some ⟨1, true⟩ ∧
    (2, "New note added") ∉
      (broadcast_message [⟨1, true⟩, ⟨2, false⟩] "New note added").1 := by
  decide

/-- C3 amended: when a send fails, the bare for-loop stops at the first
failing connection: connections before it in registration order were
delivered to, connections from it onwards receive nothing, the exception
propagates to the request that triggered the broadcast, and no connection is
removed from the registry (broadcast_message never mutates it; removal
happens only in the receive loop on disconnect). -/
theorem broadcast_failure_aborts
    (healthy tail : List Conn) (c : Conn) (message : String)
    (hhealthy : ∀ d ∈ healthy, d.sendFails = false)
    (hc : c.sendFails = true) :
    broadcast_message (healthy ++ c :: tail) message =
      (healthy.map (fun d => (d.id, message)), some c) := by
  induction healthy with
  | nil => simp only [List.nil_append, broadcast_message, hc, if_true, List.map_nil]
  | cons d rest ih =>
      have hd := hhealthy d (List.mem_cons_self d rest)
      simp only [List.cons_append, broadcast_message, hd, Bool.false_eq_true,
        if_false, List.map_cons, List.append_eq]
      rw [ih (fun e he => hhealthy e (List.mem_cons_of_mem d he))]

/-- Concrete instance of the amended C3: with connections 1 (healthy),
2 (failing), 3 (healthy), only connection 1 is delivered to and the failure
on connection 2 is surfaced. -/
theorem broadcast_failure_aborts_witness :
    broadcast_message [⟨1, false⟩, ⟨2, true⟩, ⟨3, false⟩] "m" =
      ([(1, "m")], some ⟨2, true⟩) := by
  have h := broadcast_failure_aborts [⟨1, false⟩] [⟨3, false⟩] ⟨2, true⟩ "m"
    (by decide) rfl
  exact h

/-- C6 counterexample: the empty string is a present Authorization header
value that is not a two-part bearer value, yet the Python guard
`if not authorization` is truthy-based and treats it as absent, so it fails
with MissingHeader rather than the claimed distinct MalformedHeader. -/
theorem auth_header_empty_present_is_missing :
    parseAuthHeader (some "") = Except.error AuthError.missingHeader ∧
    pySplit "" = [] ∧
    AuthError.missingHeader ≠ AuthError.malformedHeader :=
  ⟨rfl, rfl, by decide⟩

/-- C6 amended: an absent header, and likewise a present but empty header
(falsy under the guard), fail with MissingHeader; a present non-empty header
that is not exactly two whitespace-separated parts with first part
case-insensitively equal to "bearer" fails with MalformedHeader; the two
failures are distinguishable and both are surfaced with status 401. -/
theorem auth_header_parsing (a : String) :
    parseAuthHeader none = Except.error AuthError.missingHeader ∧
    parseAuthHeader (some "") = Except.error AuthError.missingHeader ∧
    (a ≠ "" →
      ((pySplit a).length ≠ 2 ∨ pyLower ((pySplit a).headD "") ≠ "bearer") →
      parseAuthHeader (some a) = Except.error AuthError.malformedHeader) ∧
    AuthError.missingHeader ≠ AuthError.malformedHeader ∧
    authStatus AuthError.missingHeader = 401 ∧
    authStatus AuthError.malformedHeader = 401 := by
  refine ⟨rfl, rfl, ?_, by decide, rfl, rfl⟩
  intro ha hbad
  simp only [parseAuthHeader]
  rw [if_neg ha, if_pos hbad]

/-- Concrete instance of the amended C6: the header value "Token xyz" is
present and two-part but has the wrong scheme, so it fails with
MalformedHeader. -/
theorem auth_header_parsing_witness :
    parseAuthHeader (some "Token xyz") = Except.error AuthError.malformedHeader :=
  (auth_header_parsing "Token xyz").2.2.1 (by decide) (by decide)

/-- C8 counterexample: the service enforces no non-empty-title rule: an
authenticated create request with an empty title succeeds and persists a note
whose title is the empty string. -/
theorem empty_title_note_created :
    add_note ⟨[⟨1, "alice", "h"⟩], [], 2, 1⟩ "alice" "" "body" =
      (⟨[⟨1, "alice", "h"⟩], [⟨1, "", "body", 1⟩], 2, 2⟩, AddNoteResult.ok) ∧
    (⟨1, "", "body", 1⟩ : NoteRec) ∈
      (add_note ⟨[⟨1, "alice", "h"⟩], [], 2, 1⟩ "alice" "" "body").1.notes := by
  decide

/-- C8 amended: note creation accepts every title string, the empty string
included: for any resolved user the insert succeeds and appends a note
carrying exactly the given title and content, so no emptiness constraint on
titles is validated or enforced anywhere on the create path. -/
theorem add_note_no_title_validation
    (db : DBState) (username title content : String) (u : UserRec)
    (hu : selectUserByName db username = some u) :
    add_note db username title content =
      ({ db with
          notes := db.notes ++ [⟨db.nextNoteId, title, content, u.id⟩],
          nextNoteId := db.nextNoteId + 1 },
       AddNoteResult.ok) := by
  simp only [add_note, hu]

/-- Concrete instance of the amended C8: bob creates a note with an empty
title and it is appended to the notes table verbatim. -/
theorem add_note_no_title_validation_witness :
    add_note ⟨[⟨1, "bob", "h"⟩], [], 2, 5⟩ "bob" "" "c" =
      (⟨[⟨1, "bob", "h"⟩], [⟨5, "", "c", 1⟩], 2, 6⟩, AddNoteResult.ok) := by
  have h := add_note_no_title_validation ⟨[⟨1, "bob", "h"⟩], [], 2, 5⟩ "bob" "" "c"
    ⟨1, "bob", "h"⟩ (by decide)
  exact h
